import Mathlib

/-!
Shallow embedding of the `pino_xutils` repository (crates `pino_xrdb` and
`pino_xmodmap`) and proofs about it.

Text is modelled as `List Char` (the content of a Rust `str`), raw process
output as `List Nat` (a byte vector), and `std::collections::HashMap` as an
association list in which `insert` prepends and `find` returns the most
recently inserted binding — exactly the observable behaviour of a hash map
through `insert`/`get`.
-/

namespace PinoX

/-- Text content of a Rust `str`/`String`. -/
abbrev Str := List Char

/-- Lookup in the association-list model of `HashMap`: the most recently
inserted binding (nearest the head) wins, as `HashMap::get` does. -/
def findA {α β : Type} [DecidableEq α] : List (α × β) → α → Option β
  | [], _ => none
  | (k, v) :: rest, a => if a = k then some v else findA rest a

/-- Insertion in the association-list model of `HashMap::insert`: the new
binding shadows any previous binding of the same key. -/
def insertA {α β : Type} (m : List (α × β)) (k : α) (v : β) : List (α × β) :=
  (k, v) :: m

/-- Rust `char::is_whitespace`: the Unicode `White_Space` code points. -/
def isRustWhitespace (c : Char) : Bool :=
  let n := c.toNat
  (0x09 ≤ n ∧ n ≤ 0x0d) ∨ n = 0x20 ∨ n = 0x85 ∨ n = 0xa0 ∨ n = 0x1680 ∨
  (0x2000 ≤ n ∧ n ≤ 0x200a) ∨ n = 0x2028 ∨ n = 0x2029 ∨ n = 0x202f ∨
  n = 0x205f ∨ n = 0x3000

/-- Rust `char::is_ascii_whitespace`: space, tab, newline, form feed, carriage return. -/
def isAsciiWs (c : Char) : Bool :=
  c = ' ' ∨ c = '\t' ∨ c = '\n' ∨ c = '\x0c' ∨ c = '\r'

/-- Rust `str::trim`: remove leading and trailing Unicode whitespace. -/
def trim (s : Str) : Str :=
  ((s.dropWhile isRustWhitespace).reverse.dropWhile isRustWhitespace).reverse

/-- Rust `str::split_once(sep)` for a single-`char` pattern: split at the first
occurrence of `sep`, the separator itself excluded; `none` when `sep` is absent. -/
def splitOnce (sep : Char) : Str → Option (Str × Str)
  | [] => none
  | x :: xs =>
    if x = sep then some ([], xs)
    else (splitOnce sep xs).map (fun p => (x :: p.1, p.2))

/-- Split a character list at every occurrence of `sep`, keeping empty pieces
(`n` separators give `n + 1` pieces). Helper for `rustLines`. -/
def splitAll (sep : Char) : Str → List Str
  | [] => [[]]
  | x :: xs =>
    if x = sep then [] :: splitAll sep xs
    else match splitAll sep xs with
      | [] => [[x]]
      | p :: ps => (x :: p) :: ps

/-- Strip one trailing carriage return, as Rust `str::lines` does per line. -/
def stripCr (s : Str) : Str :=
  match s.reverse with
  | '\r' :: rest => rest.reverse
  | _ => s

/-- Rust `str::lines`: split on `\n`, strip one trailing `\r` from each line,
and do not report a final empty line after a trailing newline. -/
def rustLines (s : Str) : List Str :=
  match (splitAll '\n' s).reverse with
  | [] => []
  | last :: front =>
    (if last = [] then front.reverse else (last :: front).reverse).map stripCr

/-- Rust `str::split_ascii_whitespace` as a list of tokens: maximal runs of
non-whitespace characters, in order. -/
def tokens : Str → List Str
  | [] => []
  | c :: cs =>
    if isAsciiWs c then tokens cs
    else match tokens cs with
      | [] => [[c]]
      | t :: ts =>
        match cs with
        | [] => [[c]]
        | c' :: _ => if isAsciiWs c' then [c] :: t :: ts else (c :: t) :: ts

/-- Value of a list of ASCII decimal digits, most significant first. -/
def digitsVal (s : Str) : Nat :=
  s.foldl (fun a c => a * 10 + (c.toNat - 48)) 0

/-- Rust `str::parse::<u8>`: an optional leading `+`, then one or more ASCII
digits, value at most 255; anything else is an error. -/
def parseU8 (s : Str) : Option Nat :=
  let t := match s with
    | '+' :: rest => rest
    | _ => s
  if t = [] then none
  else if t.all (fun c => '0' ≤ c ∧ c ≤ '9') then
    if digitsVal t ≤ 255 then some (digitsVal t) else none
  else none

/-- Rust `String::from_utf8` on a byte vector: decode as strict UTF-8
(rejecting continuation-byte errors, overlong forms, surrogates and values
above `0x10FFFF`), or fail. -/
def utf8Decode : List Nat → Option (List Char)
  | [] => some []
  | b :: bs =>
    if b < 0x80 then (utf8Decode bs).map (fun cs => Char.ofNat b :: cs)
    else if b < 0xc2 then none
    else if b < 0xe0 then
      match bs with
      | b1 :: bs' =>
        if 0x80 ≤ b1 ∧ b1 < 0xc0 then
          (utf8Decode bs').map (fun cs => Char.ofNat ((b - 0xc0) * 64 + (b1 - 0x80)) :: cs)
        else none
      | [] => none
    else if b < 0xf0 then
      match bs with
      | b1 :: b2 :: bs' =>
        if (0x80 ≤ b1 ∧ b1 < 0xc0) ∧ (0x80 ≤ b2 ∧ b2 < 0xc0) ∧
           (b = 0xe0 → 0xa0 ≤ b1) ∧ (b = 0xed → b1 < 0xa0) then
          (utf8Decode bs').map
            (fun cs => Char.ofNat ((b - 0xe0) * 4096 + (b1 - 0x80) * 64 + (b2 - 0x80)) :: cs)
        else none
      | _ => none
    else if b < 0xf5 then
      match bs with
      | b1 :: b2 :: b3 :: bs' =>
        if (0x80 ≤ b1 ∧ b1 < 0xc0) ∧ (0x80 ≤ b2 ∧ b2 < 0xc0) ∧ (0x80 ≤ b3 ∧ b3 < 0xc0) ∧
           (b = 0xf0 → 0x90 ≤ b1) ∧ (b = 0xf4 → b1 < 0x90) then
          (utf8Decode bs').map
            (fun cs =>
              Char.ofNat ((b - 0xf0) * 262144 + (b1 - 0x80) * 4096 + (b2 - 0x80) * 64 +
                (b3 - 0x80)) :: cs)
        else none
      | _ => none
    else none

/-- Error type of `pino_xrdb` (`XrdbError` in `src/pino_xrdb/src/lib.rs`). -/
inductive XrdbError where
  | Missing
  | Errored (msg : Str)
  | Invalid
  | OutputMalformed
deriving DecidableEq

/-- The `Xrdb` database struct: a per-program map of resource maps and a
universal resource map (field name `univeral` kept as in the source). -/
structure Xrdb where
  db : List (Str × List (Str × Str))
  univeral : List (Str × Str)
deriving DecidableEq

/-- `Xrdb::new` / `Xrdb::default`: both maps empty. -/
def Xrdb.new : Xrdb := ⟨[], []⟩

/-- `Xrdb::insert`: upsert `val` under `res` in `program`'s sub-map, creating
the sub-map first when absent (the `get_prog_mut` path of the source). -/
def Xrdb.insert (x : Xrdb) (program res val : Str) : Xrdb :=
  { x with db := insertA x.db program (insertA ((findA x.db program).getD []) res val) }

/-- The `insert_universal` method of `Xrdb`: upsert into the universal map only. -/
def Xrdb.insert_universal (x : Xrdb) (res val : Str) : Xrdb :=
  { x with univeral := insertA x.univeral res val }

/-- `Xrdb::query`: the program's sub-map first, then the universal map. -/
def Xrdb.query (x : Xrdb) (program res : Str) : Option Str :=
  match findA x.db program with
  | some prog =>
    match findA prog res with
    | some val => some val
    | none => findA x.univeral res
  | none => findA x.univeral res

/-- One iteration of the parsing loop of `Xrdb::read`: split on the first `.`,
split the remainder on the first `:`, trim all three fields, store as universal
exactly when the trimmed program field is `*`; a line without both separators
leaves the store unchanged. -/
def Xrdb.processLine (x : Xrdb) (l : Str) : Xrdb :=
  match splitOnce '.' l with
  | none => x
  | some (prog, rest) =>
    match splitOnce ':' rest with
    | none => x
    | some (res, val) =>
      if trim prog = "*".data then x.insert_universal (trim res) (trim val)
      else x.insert (trim prog) (trim res) (trim val)

/-- The line loop of `Xrdb::read` over the lines of the captured output. -/
def Xrdb.readLines (x : Xrdb) : List Str → Xrdb
  | [] => x
  | l :: ls => (x.processLine l).readLines ls

/-- `Xrdb::read` downstream of the process invocation: given the exit status
and the captured byte vectors, decode and parse exactly as the source does. -/
def Xrdb.readFromOutput (x : Xrdb) (success : Bool) (stdout stderr : List Nat) :
    Except XrdbError Xrdb :=
  if !success then
    match utf8Decode stderr with
    | none => .error .OutputMalformed
    | some errStr => .error (.Errored errStr)
  else
    match utf8Decode stdout with
    | none => .error .OutputMalformed
    | some outStr => .ok (x.readLines (rustLines outStr))

/-- The `KeySym` enumeration of `pino_xmodmap`: one constructor per possible key sym. -/
inductive KeySym where
  | KEY_NONE
  | KEY_a
  | KEY_b
  | KEY_c
  | KEY_d
  | KEY_e
  | KEY_f
  | KEY_g
  | KEY_h
  | KEY_i
  | KEY_j
  | KEY_k
  | KEY_l
  | KEY_m
  | KEY_n
  | KEY_o
  | KEY_p
  | KEY_q
  | KEY_r
  | KEY_s
  | KEY_t
  | KEY_u
  | KEY_v
  | KEY_w
  | KEY_x
  | KEY_y
  | KEY_z
  | KEY_A
  | KEY_B
  | KEY_C
  | KEY_D
  | KEY_E
  | KEY_F
  | KEY_G
  | KEY_H
  | KEY_I
  | KEY_J
  | KEY_K
  | KEY_L
  | KEY_M
  | KEY_N
  | KEY_O
  | KEY_P
  | KEY_Q
  | KEY_R
  | KEY_S
  | KEY_T
  | KEY_U
  | KEY_V
  | KEY_W
  | KEY_X
  | KEY_Y
  | KEY_Z
  | KEY_SPACE
  | KEY_RETURN
  | KEY_BACKSPACE
  | KEY_TAB
  | KEY_ESCAPE
  | KEY_GRAVE
  | KEY_TILDE
  | KEY_0
  | KEY_1
  | KEY_2
  | KEY_3
  | KEY_4
  | KEY_5
  | KEY_6
  | KEY_7
  | KEY_8
  | KEY_9
  | KEY_EXCLAMATION
  | KEY_AT
  | KEY_NUMBERSIGN
  | KEY_DOLLAR
  | KEY_PERCENT
  | KEY_CIRCUM
  | KEY_AMPERSAND
  | KEY_ASTERISK
  | KEY_PARENLEFT
  | KEY_PARENRIGHT
  | KEY_MINUS
  | KEY_UNDERSCORE
  | KEY_PLUS
  | KEY_EQUAL
  | KEY_BRACKETLEFT
  | KEY_BRACKETRIGHT
  | KEY_BRACELEFT
  | KEY_BRACERIGHT
  | KEY_SEMICOLON
  | KEY_COLON
  | KEY_APOSTROPHE
  | KEY_DOUBLEQUOTE
  | KEY_BACKSLASH
  | KEY_BAR
  | KEY_COMMA
  | KEY_LESS
  | KEY_PERIOD
  | KEY_GREATER
  | KEY_SLASH
  | KEY_QUESTION
  | KEY_F1
  | KEY_F2
  | KEY_F3
  | KEY_F4
  | KEY_F5
  | KEY_F6
  | KEY_F7
  | KEY_F8
  | KEY_F9
  | KEY_F10
  | KEY_F11
  | KEY_F12
deriving DecidableEq

/-- The name table of `impl FromStr for KeySym`, one entry per match arm, in
source order (all patterns are distinct, so ordered first-match lookup is the
match's semantics). -/
def keysymNames : List (Str × KeySym) := [
  ("a".data, KeySym.KEY_a),
  ("b".data, KeySym.KEY_b),
  ("c".data, KeySym.KEY_c),
  ("d".data, KeySym.KEY_d),
  ("e".data, KeySym.KEY_e),
  ("f".data, KeySym.KEY_f),
  ("g".data, KeySym.KEY_g),
  ("h".data, KeySym.KEY_h),
  ("i".data, KeySym.KEY_i),
  ("j".data, KeySym.KEY_j),
  ("k".data, KeySym.KEY_k),
  ("l".data, KeySym.KEY_l),
  ("m".data, KeySym.KEY_m),
  ("n".data, KeySym.KEY_n),
  ("o".data, KeySym.KEY_o),
  ("p".data, KeySym.KEY_p),
  ("q".data, KeySym.KEY_q),
  ("r".data, KeySym.KEY_r),
  ("s".data, KeySym.KEY_s),
  ("t".data, KeySym.KEY_t),
  ("u".data, KeySym.KEY_u),
  ("v".data, KeySym.KEY_v),
  ("w".data, KeySym.KEY_w),
  ("x".data, KeySym.KEY_x),
  ("y".data, KeySym.KEY_y),
  ("z".data, KeySym.KEY_z),
  ("A".data, KeySym.KEY_A),
  ("B".data, KeySym.KEY_B),
  ("C".data, KeySym.KEY_C),
  ("D".data, KeySym.KEY_D),
  ("E".data, KeySym.KEY_E),
  ("F".data, KeySym.KEY_F),
  ("G".data, KeySym.KEY_G),
  ("H".data, KeySym.KEY_H),
  ("I".data, KeySym.KEY_I),
  ("J".data, KeySym.KEY_J),
  ("K".data, KeySym.KEY_K),
  ("L".data, KeySym.KEY_L),
  ("M".data, KeySym.KEY_M),
  ("N".data, KeySym.KEY_N),
  ("O".data, KeySym.KEY_O),
  ("P".data, KeySym.KEY_P),
  ("Q".data, KeySym.KEY_Q),
  ("R".data, KeySym.KEY_R),
  ("S".data, KeySym.KEY_S),
  ("T".data, KeySym.KEY_T),
  ("U".data, KeySym.KEY_U),
  ("V".data, KeySym.KEY_V),
  ("W".data, KeySym.KEY_W),
  ("X".data, KeySym.KEY_X),
  ("Y".data, KeySym.KEY_Y),
  ("Z".data, KeySym.KEY_Z),
  ("0".data, KeySym.KEY_0),
  ("1".data, KeySym.KEY_1),
  ("2".data, KeySym.KEY_2),
  ("3".data, KeySym.KEY_3),
  ("4".data, KeySym.KEY_4),
  ("5".data, KeySym.KEY_5),
  ("6".data, KeySym.KEY_6),
  ("7".data, KeySym.KEY_7),
  ("8".data, KeySym.KEY_8),
  ("9".data, KeySym.KEY_9),
  ("exclam".data, KeySym.KEY_EXCLAMATION),
  ("at".data, KeySym.KEY_AT),
  ("numbersign".data, KeySym.KEY_NUMBERSIGN),
  ("dollar".data, KeySym.KEY_DOLLAR),
  ("percent".data, KeySym.KEY_PERCENT),
  ("asciicircum".data, KeySym.KEY_CIRCUM),
  ("ampersand".data, KeySym.KEY_AMPERSAND),
  ("asterisk".data, KeySym.KEY_ASTERISK),
  ("parenleft".data, KeySym.KEY_PARENLEFT),
  ("parenright".data, KeySym.KEY_PARENRIGHT),
  ("minus".data, KeySym.KEY_MINUS),
  ("underscore".data, KeySym.KEY_UNDERSCORE),
  ("plus".data, KeySym.KEY_PLUS),
  ("equal".data, KeySym.KEY_EQUAL),
  ("bracketleft".data, KeySym.KEY_BRACKETLEFT),
  ("bracketright".data, KeySym.KEY_BRACKETRIGHT),
  ("braceleft".data, KeySym.KEY_BRACELEFT),
  ("braceright".data, KeySym.KEY_BRACERIGHT),
  ("semicolon".data, KeySym.KEY_SEMICOLON),
  ("colon".data, KeySym.KEY_COLON),
  ("apostrophe".data, KeySym.KEY_APOSTROPHE),
  ("quotedbl".data, KeySym.KEY_DOUBLEQUOTE),
  ("backslash".data, KeySym.KEY_BACKSLASH),
  ("bar".data, KeySym.KEY_BAR),
  ("comma".data, KeySym.KEY_COMMA),
  ("less".data, KeySym.KEY_LESS),
  ("period".data, KeySym.KEY_PERIOD),
  ("greater".data, KeySym.KEY_GREATER),
  ("slash".data, KeySym.KEY_SLASH),
  ("question".data, KeySym.KEY_QUESTION),
  ("grave".data, KeySym.KEY_GRAVE),
  ("asciitilde".data, KeySym.KEY_TILDE),
  ("space".data, KeySym.KEY_SPACE),
  ("Return".data, KeySym.KEY_RETURN),
  ("BackSpace".data, KeySym.KEY_BACKSPACE),
  ("Tab".data, KeySym.KEY_TAB),
  ("Escape".data, KeySym.KEY_ESCAPE),
  ("NoSymbol".data, KeySym.KEY_NONE),
  ("F1".data, KeySym.KEY_F1),
  ("F2".data, KeySym.KEY_F2),
  ("F3".data, KeySym.KEY_F3),
  ("F4".data, KeySym.KEY_F4),
  ("F5".data, KeySym.KEY_F5),
  ("F6".data, KeySym.KEY_F6),
  ("F7".data, KeySym.KEY_F7),
  ("F8".data, KeySym.KEY_F8),
  ("F9".data, KeySym.KEY_F9),
  ("F10".data, KeySym.KEY_F10),
  ("F11".data, KeySym.KEY_F11),
  ("F12".data, KeySym.KEY_F12)]

/-- `KeySym::from_str`: parse a textual xmodmap symbol name. -/
def KeySym.fromStr (s : Str) : Option KeySym := findA keysymNames s

/-- The table of `impl TryFrom<char> for KeySym`, one entry per match arm, in
source order. -/
def charKeysyms : List (Char × KeySym) := [
  (' ', KeySym.KEY_SPACE),
  ('a', KeySym.KEY_a),
  ('b', KeySym.KEY_b),
  ('c', KeySym.KEY_c),
  ('d', KeySym.KEY_d),
  ('e', KeySym.KEY_e),
  ('f', KeySym.KEY_f),
  ('g', KeySym.KEY_g),
  ('h', KeySym.KEY_h),
  ('i', KeySym.KEY_i),
  ('j', KeySym.KEY_j),
  ('k', KeySym.KEY_k),
  ('l', KeySym.KEY_l),
  ('m', KeySym.KEY_m),
  ('n', KeySym.KEY_n),
  ('o', KeySym.KEY_o),
  ('p', KeySym.KEY_p),
  ('q', KeySym.KEY_q),
  ('r', KeySym.KEY_r),
  ('s', KeySym.KEY_s),
  ('t', KeySym.KEY_t),
  ('u', KeySym.KEY_u),
  ('v', KeySym.KEY_v),
  ('w', KeySym.KEY_w),
  ('x', KeySym.KEY_x),
  ('y', KeySym.KEY_y),
  ('z', KeySym.KEY_z),
  ('A', KeySym.KEY_A),
  ('B', KeySym.KEY_B),
  ('C', KeySym.KEY_C),
  ('D', KeySym.KEY_D),
  ('E', KeySym.KEY_E),
  ('F', KeySym.KEY_F),
  ('G', KeySym.KEY_G),
  ('H', KeySym.KEY_H),
  ('I', KeySym.KEY_I),
  ('J', KeySym.KEY_J),
  ('K', KeySym.KEY_K),
  ('L', KeySym.KEY_L),
  ('M', KeySym.KEY_M),
  ('N', KeySym.KEY_N),
  ('O', KeySym.KEY_O),
  ('P', KeySym.KEY_P),
  ('Q', KeySym.KEY_Q),
  ('R', KeySym.KEY_R),
  ('S', KeySym.KEY_S),
  ('T', KeySym.KEY_T),
  ('U', KeySym.KEY_U),
  ('V', KeySym.KEY_V),
  ('W', KeySym.KEY_W),
  ('X', KeySym.KEY_X),
  ('Y', KeySym.KEY_Y),
  ('Z', KeySym.KEY_Z),
  ('0', KeySym.KEY_0),
  ('1', KeySym.KEY_1),
  ('2', KeySym.KEY_2),
  ('3', KeySym.KEY_3),
  ('4', KeySym.KEY_4),
  ('5', KeySym.KEY_5),
  ('6', KeySym.KEY_6),
  ('7', KeySym.KEY_7),
  ('8', KeySym.KEY_8),
  ('9', KeySym.KEY_9),
  ('!', KeySym.KEY_EXCLAMATION),
  ('@', KeySym.KEY_AT),
  ('#', KeySym.KEY_NUMBERSIGN),
  ('$', KeySym.KEY_DOLLAR),
  ('%', KeySym.KEY_PERCENT),
  ('^', KeySym.KEY_CIRCUM),
  ('&', KeySym.KEY_AMPERSAND),
  ('*', KeySym.KEY_ASTERISK),
  ('(', KeySym.KEY_PARENLEFT),
  (')', KeySym.KEY_PARENRIGHT),
  ('-', KeySym.KEY_MINUS),
  ('_', KeySym.KEY_UNDERSCORE),
  ('+', KeySym.KEY_PLUS),
  ('=', KeySym.KEY_EQUAL),
  ('[', KeySym.KEY_BRACKETLEFT),
  (']', KeySym.KEY_BRACKETRIGHT),
  ('\x7b', KeySym.KEY_BRACELEFT),
  ('\x7d', KeySym.KEY_BRACERIGHT),
  (';', KeySym.KEY_SEMICOLON),
  (':', KeySym.KEY_COLON),
  ('\'', KeySym.KEY_APOSTROPHE),
  ('\"', KeySym.KEY_DOUBLEQUOTE),
  ('\\', KeySym.KEY_BACKSLASH),
  ('|', KeySym.KEY_BAR),
  (',', KeySym.KEY_COMMA),
  ('<', KeySym.KEY_LESS),
  ('.', KeySym.KEY_PERIOD),
  ('>', KeySym.KEY_GREATER),
  ('/', KeySym.KEY_SLASH),
  ('?', KeySym.KEY_QUESTION),
  ('`', KeySym.KEY_GRAVE),
  ('~', KeySym.KEY_TILDE)]

/-- `TryFrom<char> for KeySym`: the character-to-symbol conversion. -/
def KeySym.fromChar (c : Char) : Option KeySym := findA charKeysyms c

/-- The code table of `impl TryFrom<KeySym> for char`, one entry per match arm,
in source order; the sentinel and the symbols with no arm are absent. -/
def keysymChars : List (KeySym × Nat) := [
  (KeySym.KEY_BACKSPACE, 0x8),
  (KeySym.KEY_TAB, 0x9),
  (KeySym.KEY_ESCAPE, 0x1b),
  (KeySym.KEY_SPACE, 0x20),
  (KeySym.KEY_EXCLAMATION, 0x21),
  (KeySym.KEY_DOUBLEQUOTE, 0x22),
  (KeySym.KEY_NUMBERSIGN, 0x23),
  (KeySym.KEY_DOLLAR, 0x24),
  (KeySym.KEY_PERCENT, 0x25),
  (KeySym.KEY_AMPERSAND, 0x26),
  (KeySym.KEY_APOSTROPHE, 0x27),
  (KeySym.KEY_PARENLEFT, 0x28),
  (KeySym.KEY_PARENRIGHT, 0x29),
  (KeySym.KEY_ASTERISK, 0x2a),
  (KeySym.KEY_PLUS, 0x2b),
  (KeySym.KEY_COMMA, 0x2c),
  (KeySym.KEY_MINUS, 0x2d),
  (KeySym.KEY_PERIOD, 0x2e),
  (KeySym.KEY_SLASH, 0x2f),
  (KeySym.KEY_0, 0x30),
  (KeySym.KEY_1, 0x31),
  (KeySym.KEY_2, 0x32),
  (KeySym.KEY_3, 0x33),
  (KeySym.KEY_4, 0x34),
  (KeySym.KEY_5, 0x35),
  (KeySym.KEY_6, 0x36),
  (KeySym.KEY_7, 0x37),
  (KeySym.KEY_8, 0x38),
  (KeySym.KEY_9, 0x39),
  (KeySym.KEY_COLON, 0x3a),
  (KeySym.KEY_SEMICOLON, 0x3b),
  (KeySym.KEY_LESS, 0x3c),
  (KeySym.KEY_EQUAL, 0x3d),
  (KeySym.KEY_GREATER, 0x3e),
  (KeySym.KEY_QUESTION, 0x3f),
  (KeySym.KEY_AT, 0x40),
  (KeySym.KEY_A, 0x41),
  (KeySym.KEY_B, 0x42),
  (KeySym.KEY_C, 0x43),
  (KeySym.KEY_D, 0x44),
  (KeySym.KEY_E, 0x45),
  (KeySym.KEY_F, 0x46),
  (KeySym.KEY_G, 0x47),
  (KeySym.KEY_H, 0x48),
  (KeySym.KEY_I, 0x49),
  (KeySym.KEY_J, 0x4a),
  (KeySym.KEY_K, 0x4b),
  (KeySym.KEY_L, 0x4c),
  (KeySym.KEY_M, 0x4d),
  (KeySym.KEY_N, 0x4e),
  (KeySym.KEY_O, 0x4f),
  (KeySym.KEY_P, 0x50),
  (KeySym.KEY_Q, 0x51),
  (KeySym.KEY_R, 0x52),
  (KeySym.KEY_S, 0x53),
  (KeySym.KEY_T, 0x54),
  (KeySym.KEY_U, 0x55),
  (KeySym.KEY_V, 0x56),
  (KeySym.KEY_W, 0x57),
  (KeySym.KEY_X, 0x58),
  (KeySym.KEY_Y, 0x59),
  (KeySym.KEY_Z, 0x5a),
  (KeySym.KEY_a, 0x61),
  (KeySym.KEY_b, 0x62),
  (KeySym.KEY_c, 0x63),
  (KeySym.KEY_d, 0x64),
  (KeySym.KEY_e, 0x65),
  (KeySym.KEY_f, 0x66),
  (KeySym.KEY_g, 0x67),
  (KeySym.KEY_h, 0x68),
  (KeySym.KEY_i, 0x69),
  (KeySym.KEY_j, 0x6a),
  (KeySym.KEY_k, 0x6b),
  (KeySym.KEY_l, 0x6c),
  (KeySym.KEY_m, 0x6d),
  (KeySym.KEY_n, 0x6e),
  (KeySym.KEY_o, 0x6f),
  (KeySym.KEY_p, 0x70),
  (KeySym.KEY_q, 0x71),
  (KeySym.KEY_r, 0x72),
  (KeySym.KEY_s, 0x73),
  (KeySym.KEY_t, 0x74),
  (KeySym.KEY_u, 0x75),
  (KeySym.KEY_v, 0x76),
  (KeySym.KEY_w, 0x77),
  (KeySym.KEY_x, 0x78),
  (KeySym.KEY_y, 0x79),
  (KeySym.KEY_z, 0x7a),
  (KeySym.KEY_BRACELEFT, 0x7b),
  (KeySym.KEY_BAR, 0x7c),
  (KeySym.KEY_BRACERIGHT, 0x7d),
  (KeySym.KEY_TILDE, 0x7e)]

/-- Rust `char::from_u32`: `some` exactly on valid scalar values. -/
def charFromU32 (n : Nat) : Option Char :=
  if n.isValidChar then some (Char.ofNat n) else none

/-- `TryFrom<KeySym> for char`: the symbol-to-character conversion. -/
def KeySym.toChar (s : KeySym) : Option Char :=
  (findA keysymChars s).bind charFromU32


/-- The `Modifier` enumeration: one tag per xmodmap column. -/
inductive Modifier where
  | Key
  | ShiftKey
  | ModeSwitchKey
  | ModeSwitchShiftKey
  | ISOLevel3ShiftKey
  | ISOLevel3ShiftShiftKey
deriving DecidableEq

/-- `KeyCode`: `type KeyCode = u8` (values kept in `Nat`; the parser only ever
produces values at most 255). -/
abbrev KeyCode := Nat

/-- `Key`: `type Key = (Modifier, KeyCode)`. -/
abbrev Key := Modifier × KeyCode

/-- Error type of `pino_xmodmap` (`Error` in `src/pino_xmodmap/src/lib.rs`). -/
inductive Error where
  | XmodmapRunError
  | InvalidFormat
  | NonExistentKeyCode
  | NonExistentKeySym
deriving DecidableEq

/-- The `KeyTable` struct: forward map `Key → KeySym` and reverse map
`KeySym → Key`. -/
structure KeyTable where
  key_to_keysym : List (Key × KeySym)
  keysym_to_key : List (KeySym × Key)
deriving DecidableEq

/-- Outcome of running (part of) `KeyTable::new`: a value, a typed error, or a
Rust panic (a failed `assert_eq!` in the source). -/
inductive BuildRes (α : Type) where
  | ok (a : α)
  | fail (e : Error)
  | panicked
deriving DecidableEq

/-- One iteration of the line loop of `KeyTable::new`, on the token iterator of
one line. In source order: `assert_eq!(Some("keycode"), split.next())` (a panic
when it fails), then the key-code token (`InvalidFormat` when absent or not a
`u8`), then `assert_eq!(Some("="), split.next())` (again a panic), then the two
symbol tokens, an absent or unrecognized token resolving to `KEY_NONE`, and the
four map insertions. -/
def stepLine (st : KeyTable) (l : Str) : BuildRes KeyTable :=
  match tokens l with
  | [] => .panicked
  | t0 :: rest =>
    if t0 ≠ "keycode".data then .panicked
    else match rest with
      | [] => .fail .InvalidFormat
      | t1 :: rest =>
        match parseU8 t1 with
        | none => .fail .InvalidFormat
        | some keycode =>
          match rest with
          | [] => .panicked
          | t2 :: rest =>
            if t2 ≠ "=".data then .panicked
            else
              let a := (KeySym.fromStr (rest.headD "".data)).getD .KEY_NONE
              let b := (KeySym.fromStr ((rest.drop 1).headD "".data)).getD .KEY_NONE
              .ok
                { key_to_keysym :=
                    insertA (insertA st.key_to_keysym (Modifier.Key, keycode) a)
                      (Modifier.ShiftKey, keycode) b,
                  keysym_to_key :=
                    insertA (insertA st.keysym_to_key a (Modifier.Key, keycode)) b
                      (Modifier.Key, keycode) }

/-- The line loop of `KeyTable::new` over a list of lines, threading the two
maps; an error or panic aborts the loop. -/
def buildAux (st : KeyTable) : List Str → BuildRes KeyTable
  | [] => .ok st
  | l :: ls =>
    match stepLine st l with
    | .ok st' => buildAux st' ls
    | .fail e => .fail e
    | .panicked => .panicked

/-- The empty initial state of `KeyTable::new`. -/
def KeyTable.empty : KeyTable := ⟨[], []⟩

/-- `KeyTable::new` downstream of the process invocation: decode the captured
standard output (`String::from_utf8(...).or(Err(Error::XmodmapRunError))`),
then run the line loop. -/
def KeyTable.fromOutput (stdout : List Nat) : BuildRes KeyTable :=
  match utf8Decode stdout with
  | none => .fail .XmodmapRunError
  | some text => buildAux KeyTable.empty (rustLines text)

/-- `KeyTable::get_keysym`: forward lookup, `NonExistentKeyCode` on a miss. -/
def KeyTable.get_keysym (t : KeyTable) (modifier : Modifier) (code : KeyCode) :
    Except Error KeySym :=
  match findA t.key_to_keysym (modifier, code) with
  | some k => .ok k
  | none => .error .NonExistentKeyCode

/-- `KeyTable::get_key`: reverse lookup, `NonExistentKeySym` on a miss. -/
def KeyTable.get_key (t : KeyTable) (keysym : KeySym) : Except Error Key :=
  match findA t.keysym_to_key keysym with
  | some k => .ok k
  | none => .error .NonExistentKeySym

/-- The successful-parse content of one keymap line: some exactly when the line
loop of `KeyTable::new` neither panics nor errors on the line, giving the key
code, the unmodified-column symbol and the shift-column symbol. -/
def parseLine (l : Str) : Option (KeyCode × KeySym × KeySym) :=
  match tokens l with
  | t0 :: t1 :: t2 :: rest =>
    if t0 = "keycode".data ∧ t2 = "=".data then
      (parseU8 t1).map (fun kc =>
        (kc, (KeySym.fromStr (rest.headD "".data)).getD .KEY_NONE,
          (KeySym.fromStr ((rest.drop 1).headD "".data)).getD .KEY_NONE))
    else none
  | _ => none

/-- The most recent successful parse for key code `kc` among the lines `ls`
(later lines take precedence), with both column symbols. -/
def lastParsed (ls : List Str) (kc : KeyCode) : Option (KeySym × KeySym) :=
  match ls with
  | [] => none
  | l :: rest =>
    match lastParsed rest kc with
    | some x => some x
    | none =>
      match parseLine l with
      | some (kc', a, b) => if kc' = kc then some (a, b) else none
      | none => none

/-- The key code of the most recently parsed cell producing symbol `s` among
the lines `ls`. -/
def lastSym (ls : List Str) (s : KeySym) : Option KeyCode :=
  match ls with
  | [] => none
  | l :: rest =>
    match lastSym rest s with
    | some kc => some kc
    | none =>
      match parseLine l with
      | some (kc, a, b) => if a = s ∨ b = s then some kc else none
      | none => none

/-- The six characters that the character-to-KeySym conversion accepts but
whose KeySym has no arm in the KeySym-to-char conversion (code points
`0x5b`-`0x60` are skipped there). -/
def gapChars : List Char := ['[', ']', '\\', '^', '_', '\x60']

theorem findA_insert_self {α β : Type} [DecidableEq α] (m : List (α × β)) (k : α) (v : β) :
    findA (insertA m k v) k = some v := by
  simp [findA, insertA]

theorem findA_insert_ne {α β : Type} [DecidableEq α] (m : List (α × β)) (k k' : α) (v : β)
    (h : k' ≠ k) : findA (insertA m k v) k' = findA m k' := by
  simp [findA, insertA, h]

theorem stepLine_eq (st : KeyTable) (l : Str) :
    (∀ kc a b, parseLine l = some (kc, a, b) →
      stepLine st l = .ok
        ⟨insertA (insertA st.key_to_keysym (Modifier.Key, kc) a) (Modifier.ShiftKey, kc) b,
          insertA (insertA st.keysym_to_key a (Modifier.Key, kc)) b (Modifier.Key, kc)⟩) ∧
    (parseLine l = none →
      stepLine st l = .panicked ∨ stepLine st l = .fail Error.InvalidFormat) := by
  unfold stepLine parseLine
  rcases tokens l with _ | ⟨t0, _ | ⟨t1, _ | ⟨t2, rest⟩⟩⟩
  · exact ⟨by intro kc a b h; simp at h, fun _ => Or.inl rfl⟩
  · refine ⟨by intro kc a b h; simp at h, fun _ => ?_⟩
    by_cases h0 : t0 = "keycode".data
    · simp [h0]
    · simp [h0]
  · refine ⟨by intro kc a b h; simp at h, fun _ => ?_⟩
    by_cases h0 : t0 = "keycode".data
    · rcases hp : parseU8 t1 with _ | kc <;> simp [h0, hp]
    · simp [h0]
  · constructor
    · intro kc a b h
      by_cases h0 : t0 = "keycode".data
      · by_cases h2 : t2 = "=".data
        · rcases hp : parseU8 t1 with _ | kc'
          · simp [h0, h2, hp] at h
          · simp only [h0, h2, and_self, if_true, hp, Option.map_some', Option.some.injEq,
              Prod.mk.injEq] at h
            obtain ⟨rfl, rfl, rfl⟩ := h
            simp [h0, h2, hp]
        · simp [h0, h2] at h
      · simp [h0] at h
    · intro h
      by_cases h0 : t0 = "keycode".data
      · rcases hp : parseU8 t1 with _ | kc'
        · simp [h0, hp]
        · by_cases h2 : t2 = "=".data
          · simp [h0, h2, hp] at h
          · simp [h0, h2, hp]
      · simp [h0]

theorem buildAux_find {ls : List Str} {st t : KeyTable} (h : buildAux st ls = .ok t) :
    (∀ kc,
      findA t.key_to_keysym (Modifier.Key, kc)
        = match lastParsed ls kc with
          | some ab => some ab.1
          | none => findA st.key_to_keysym (Modifier.Key, kc)) ∧
    (∀ kc,
      findA t.key_to_keysym (Modifier.ShiftKey, kc)
        = match lastParsed ls kc with
          | some ab => some ab.2
          | none => findA st.key_to_keysym (Modifier.ShiftKey, kc)) ∧
    (∀ m kc, m ≠ Modifier.Key → m ≠ Modifier.ShiftKey →
      findA t.key_to_keysym (m, kc) = findA st.key_to_keysym (m, kc)) ∧
    (∀ s,
      findA t.keysym_to_key s
        = match lastSym ls s with
          | some kc => some (Modifier.Key, kc)
          | none => findA st.keysym_to_key s) := by
  induction ls generalizing st with
  | nil =>
    simp only [buildAux, BuildRes.ok.injEq] at h
    subst h
    simp [lastParsed, lastSym]
  | cons l rest ih =>
    rcases hp : parseLine l with _ | ⟨kc0, a0, b0⟩
    · rcases (stepLine_eq st l).2 hp with hs | hs <;> simp [buildAux, hs] at h
    · have hs := (stepLine_eq st l).1 kc0 a0 b0 hp
      simp only [buildAux, hs] at h
      obtain ⟨ih1, ih2, ih3, ih4⟩ := ih h
      refine ⟨?_, ?_, ?_, ?_⟩
      · intro kc
        have hi := ih1 kc
        rcases hl : lastParsed rest kc with _ | ab
        · rw [hl] at hi
          simp only [lastParsed, hl, hp]
          rw [hi]
          by_cases hkc : kc0 = kc
          · subst hkc
            simp [findA, insertA]
          · simp [findA, insertA, hkc, Ne.symm hkc]
        · rw [hl] at hi
          simp only [lastParsed, hl]
          exact hi
      · intro kc
        have hi := ih2 kc
        rcases hl : lastParsed rest kc with _ | ab
        · rw [hl] at hi
          simp only [lastParsed, hl, hp]
          rw [hi]
          by_cases hkc : kc0 = kc
          · subst hkc
            simp [findA, insertA]
          · simp [findA, insertA, hkc, Ne.symm hkc]
        · rw [hl] at hi
          simp only [lastParsed, hl]
          exact hi
      · intro m kc hm1 hm2
        have hi := ih3 m kc hm1 hm2
        rw [hi]
        simp [findA, insertA, hm1, hm2]
      · intro s
        have hi := ih4 s
        rcases hl : lastSym rest s with _ | kc1
        · rw [hl] at hi
          simp only [lastSym, hl, hp]
          rw [hi]
          by_cases hb : s = b0
          · subst hb
            simp [findA, insertA]
          · by_cases ha : s = a0
            · subst ha
              simp [findA, insertA, Ne.symm hb]
            · simp [findA, insertA, ha, hb, Ne.symm ha, Ne.symm hb]
        · rw [hl] at hi
          simp only [lastSym, hl]
          exact hi

theorem findA_mem {α β : Type} [DecidableEq α] {m : List (α × β)} {a : α} {b : β}
    (h : findA m a = some b) : (a, b) ∈ m := by
  induction m with
  | nil => simp [findA] at h
  | cons p rest ih =>
    obtain ⟨k, v⟩ := p
    by_cases hk : a = k
    · subst hk
      simp only [findA, eq_self_iff_true, if_true, Option.some.injEq] at h
      subst h
      exact List.mem_cons_self ..
    · simp only [findA, if_neg hk] at h
      exact List.mem_cons_of_mem _ (ih h)

theorem splitOnce_eq_none_iff (sep : Char) (l : Str) : splitOnce sep l = none ↔ sep ∉ l := by
  induction l with
  | nil => simp [splitOnce]
  | cons x xs ih =>
    by_cases hx : x = sep
    · subst hx
      simp [splitOnce]
    · simp only [splitOnce, if_neg hx, Option.map_eq_none', ih, List.mem_cons]
      constructor
      · intro hniff hmem
        rcases hmem with hmem | hmem
        · exact hx hmem.symm
        · exact hniff hmem
      · intro hmem hin
        exact hmem (Or.inr hin)

theorem splitOnce_append (sep : Char) (a b : Str) (ha : sep ∉ a) :
    splitOnce sep (a ++ sep :: b) = some (a, b) := by
  induction a with
  | nil => simp [splitOnce]
  | cons x xs ih =>
    have hx : ¬x = sep := fun hc => ha (hc ▸ List.mem_cons_self ..)
    have hxs : sep ∉ xs := fun hc => ha (List.mem_cons_of_mem _ hc)
    simp [splitOnce, if_neg hx, ih hxs]

/-- C2: for every store state and every program `p` and resource `r`,
`query p r` returns the value in `p`'s sub-map for `r` when one exists (even if
a universal value for `r` also exists), otherwise the universal value for `r`
when one exists, otherwise `none`. -/
theorem c2_query_resolution (x : Xrdb) (p r : Str) :
    (∀ v, (findA x.db p).bind (fun m => findA m r) = some v → x.query p r = some v) ∧
    ((findA x.db p).bind (fun m => findA m r) = none →
      ∀ w, findA x.univeral r = some w → x.query p r = some w) ∧
    ((findA x.db p).bind (fun m => findA m r) = none → findA x.univeral r = none →
      x.query p r = none) := by
  unfold Xrdb.query
  rcases hdb : findA x.db p with _ | sub
  · simp
  · rcases hsub : findA sub r with _ | v <;> simp [hsub]

/-- C2 witness: a store holding a program-specific `dwm.color1` and a universal
`color1`; the program-specific value wins for `dwm`, the universal value serves
`st`, and an unconfigured resource resolves to `none`. -/
theorem c2_witness :
    ((Xrdb.new.insert "dwm".data "color1".data "#000".data).insert_universal "color1".data
        "#fff".data).query "dwm".data "color1".data = some "#000".data ∧
    ((Xrdb.new.insert "dwm".data "color1".data "#000".data).insert_universal "color1".data
        "#fff".data).query "st".data "color1".data = some "#fff".data ∧
    ((Xrdb.new.insert "dwm".data "color1".data "#000".data).insert_universal "color1".data
        "#fff".data).query "st".data "color2".data = none :=
  ⟨(c2_query_resolution _ _ _).1 _ (by decide),
   (c2_query_resolution _ _ _).2.1 (by decide) _ (by decide),
   (c2_query_resolution _ _ _).2.2 (by decide) (by decide)⟩

/-- C5: `insert_universal` leaves the whole per-program table unchanged;
`insert p r v` leaves the universal map and every other program's sub-map
unchanged; consequently a universal insert after a program-specific insert
never clobbers the program-specific value, and vice versa. -/
theorem c5_insert_frame (x : Xrdb) (p q r : Str) (v w : Str) :
    ((x.insert_universal r v).db = x.db) ∧
    ((x.insert p r v).univeral = x.univeral) ∧
    (q ≠ p → findA (x.insert p r v).db q = findA x.db q) ∧
    (((x.insert p r v).insert_universal r w).query p r = some v) ∧
    (((x.insert_universal r w).insert p r v).query p r = some v) := by
  refine ⟨rfl, rfl, ?_, ?_, ?_⟩
  · intro hq
    exact findA_insert_ne _ _ _ _ hq
  · simp [Xrdb.query, Xrdb.insert, Xrdb.insert_universal, findA_insert_self]
  · simp [Xrdb.query, Xrdb.insert, Xrdb.insert_universal, findA_insert_self]

/-- C5 witness: with concrete programs `dwm` and `st`, the frame conditions and
the order-independence consequences evaluated on explicit inserts. -/
theorem c5_witness :
    (findA ((Xrdb.new.insert "dwm".data "color1".data "#000".data).db) "st".data
      = findA Xrdb.new.db "st".data) ∧
    (((Xrdb.new.insert "dwm".data "color1".data "#000".data).insert_universal "color1".data
        "#fff".data).query "dwm".data "color1".data = some "#000".data) :=
  ⟨(c5_insert_frame Xrdb.new "dwm".data "st".data "color1".data "#000".data "#fff".data).2.2.1
      (by decide),
   (c5_insert_frame Xrdb.new "dwm".data "st".data "color1".data "#000".data
      "#fff".data).2.2.2.1⟩

/-- C6: the resource parser handles each line independently; a line splits at
its first `.` and the remainder at its first `:`, all three fields are trimmed,
the entry is stored as universal exactly when the trimmed program field is `*`
and under the program name otherwise, and a line lacking either separator in
that order is skipped without affecting the processing of the other lines. -/
theorem c6_read_line_semantics (x : Xrdb) (l p rest r v : Str) (ls : List Str) :
    (('.' ∉ l) → x.processLine l = x) ∧
    (l = p ++ '.' :: rest → '.' ∉ p → ':' ∉ rest → x.processLine l = x) ∧
    (l = p ++ '.' :: (r ++ ':' :: v) → '.' ∉ p → ':' ∉ r → trim p = "*".data →
      x.processLine l = x.insert_universal (trim r) (trim v)) ∧
    (l = p ++ '.' :: (r ++ ':' :: v) → '.' ∉ p → ':' ∉ r → trim p ≠ "*".data →
      x.processLine l = x.insert (trim p) (trim r) (trim v)) ∧
    (x.readLines (l :: ls) = (x.processLine l).readLines ls) := by
  refine ⟨?_, ?_, ?_, ?_, rfl⟩
  · intro hdot
    simp [Xrdb.processLine, (splitOnce_eq_none_iff '.' l).2 hdot]
  · rintro rfl hp hrest
    simp [Xrdb.processLine, splitOnce_append '.' p rest hp,
      (splitOnce_eq_none_iff ':' rest).2 hrest]
  · rintro rfl hp hr hstar
    simp [Xrdb.processLine, splitOnce_append '.' p _ hp, splitOnce_append ':' r v hr, hstar]
  · rintro rfl hp hr hstar
    simp [Xrdb.processLine, splitOnce_append '.' p _ hp, splitOnce_append ':' r v hr, hstar]

/-- C6 witness: a wildcard line is stored as universal, a program line under
its program, and a line with no separators is skipped. -/
theorem c6_witness :
    (Xrdb.new.processLine "*.color1:#fff".data
      = Xrdb.new.insert_universal "color1".data "#fff".data) ∧
    (Xrdb.new.processLine "dwm.color1:#000".data
      = Xrdb.new.insert "dwm".data "color1".data "#000".data) ∧
    (Xrdb.new.processLine "no separators here".data = Xrdb.new) :=
  ⟨(c6_read_line_semantics Xrdb.new "*.color1:#fff".data "*".data []
      "color1".data "#fff".data []).2.2.1 (by decide) (by decide) (by decide) (by decide),
   (c6_read_line_semantics Xrdb.new "dwm.color1:#000".data "dwm".data []
      "color1".data "#000".data []).2.2.2.1 (by decide) (by decide) (by decide) (by decide),
   (c6_read_line_semantics Xrdb.new "no separators here".data [] [] [] [] []).1 (by decide)⟩

/-- C1 counterexample: the claim fails at `c = '['`. The character-to-KeySym
conversion accepts `'['` (giving `KEY_BRACKETLEFT`), but the KeySym-to-char
conversion has no arm for `KEY_BRACKETLEFT`, so the roundtrip does not return
`'['` — it fails. -/
theorem c1_counterexample :
    KeySym.fromChar '[' = some KeySym.KEY_BRACKETLEFT ∧
    KeySym.toChar KeySym.KEY_BRACKETLEFT = none := by
  decide

set_option maxRecDepth 4096 in
theorem charKeysyms_roundtrip :
    ∀ p ∈ charKeysyms, p.1 ∉ gapChars → KeySym.toChar p.2 = some p.1 := by
  decide

/-- C1 amended: for every character accepted by the character-to-KeySym
conversion except the six gap characters (brackets, backslash, circumflex,
underscore and grave, whose KeySyms the KeySym-to-char conversion omits),
converting to a KeySym and back returns the character itself. -/
theorem c1_roundtrip_amended (c : Char) (s : KeySym) (h : KeySym.fromChar c = some s)
    (hc : c ∉ gapChars) : KeySym.toChar s = some c :=
  charKeysyms_roundtrip (c, s) (findA_mem h) hc

/-- C1 witness: the roundtrip at `'a'` and at `'~'`. -/
theorem c1_witness :
    KeySym.toChar KeySym.KEY_a = some 'a' ∧ KeySym.toChar KeySym.KEY_TILDE = some '~' :=
  ⟨c1_roundtrip_amended 'a' KeySym.KEY_a (by decide) (by decide),
   c1_roundtrip_amended '~' KeySym.KEY_TILDE (by decide) (by decide)⟩

/-- C3: evaluated at the failing input. A line whose key-code field is absent
does fail the build with `InvalidFormat` as the claim states, but a line
missing the `=` separator (`keycode 10 a A`) hits
`assert_eq!(Some("="), split.next())` and panics instead of returning the
typed `InvalidFormat` error. -/
theorem c3_missing_separator_panics :
    buildAux KeyTable.empty ["keycode".data] = .fail Error.InvalidFormat ∧
    buildAux KeyTable.empty ["keycode 10 a A".data] = .panicked := by
  decide

/-- C4: evaluated at the failing input. Construction is not total: a line whose
first token is not `keycode` (for example a plain `hello` line) fails the
`assert_eq!(Some("keycode"), split.next())` check and panics rather than
returning a table or a typed error. -/
theorem c4_construction_panics :
    buildAux KeyTable.empty ["hello".data] = .panicked ∧
    buildAux KeyTable.empty [[]] = .panicked := by
  decide

/-- C9 counterexample: on non-UTF-8 captured standard output (the byte `0xFF`),
the keymap component surfaces `XmodmapRunError` — the very variant used for a
failed tool launch — because its error enumeration has no encoding-failure
variant at all; the claim's promised distinct encoding error exists only in the
resource-store component. -/
theorem c9_counterexample :
    utf8Decode [255] = none ∧
    KeyTable.fromOutput [255] = .fail Error.XmodmapRunError := by
  decide

/-- C9 amended: when the captured standard output is not valid UTF-8, both
constructions abort; the resource store surfaces its encoding-failure variant
`OutputMalformed`, while the keymap component surfaces `XmodmapRunError`, the
same variant it uses when the tool cannot be launched. -/
theorem c9_encoding_failure (bytes stderrBytes : List Nat) (x : Xrdb)
    (h : utf8Decode bytes = none) :
    x.readFromOutput true bytes stderrBytes = .error XrdbError.OutputMalformed ∧
    KeyTable.fromOutput bytes = .fail Error.XmodmapRunError := by
  constructor
  · simp [Xrdb.readFromOutput, h]
  · simp [KeyTable.fromOutput, h]

/-- C9 witness: the amended statement evaluated at the invalid byte `0xFF`. -/
theorem c9_witness :
    Xrdb.new.readFromOutput true [255] [] = .error XrdbError.OutputMalformed ∧
    KeyTable.fromOutput [255] = .fail Error.XmodmapRunError :=
  c9_encoding_failure [255] [] Xrdb.new (by decide)

/-- C7: in a successfully built table, every populated (modifier, keycode) cell
resolves through `get_keysym` to exactly the symbol parsed for it, the most
recent parse winning on duplicate key-code lines; every other cell — an
unparsed key code, or any of the four modifier columns the parser never
populates — fails with `NonExistentKeyCode`. -/
theorem c7_get_keysym_faithful (ls : List Str) (t : KeyTable)
    (h : buildAux KeyTable.empty ls = .ok t) (kc : KeyCode) :
    (∀ a b, lastParsed ls kc = some (a, b) →
      t.get_keysym Modifier.Key kc = .ok a ∧ t.get_keysym Modifier.ShiftKey kc = .ok b) ∧
    (lastParsed ls kc = none →
      t.get_keysym Modifier.Key kc = .error .NonExistentKeyCode ∧
      t.get_keysym Modifier.ShiftKey kc = .error .NonExistentKeyCode) ∧
    (∀ m, m ≠ Modifier.Key → m ≠ Modifier.ShiftKey →
      t.get_keysym m kc = .error .NonExistentKeyCode) := by
  obtain ⟨i1, i2, i3, -⟩ := buildAux_find h
  refine ⟨?_, ?_, ?_⟩
  · intro a b hab
    have h1 := i1 kc
    have h2 := i2 kc
    rw [hab] at h1 h2
    exact ⟨by simp [KeyTable.get_keysym, h1], by simp [KeyTable.get_keysym, h2]⟩
  · intro hnone
    have h1 := i1 kc
    have h2 := i2 kc
    rw [hnone] at h1 h2
    exact ⟨by simp [KeyTable.get_keysym, h1, KeyTable.empty, findA],
      by simp [KeyTable.get_keysym, h2, KeyTable.empty, findA]⟩
  · intro m hm1 hm2
    have h3 := i3 m kc hm1 hm2
    simp [KeyTable.get_keysym, h3, KeyTable.empty, findA]

/-- C7 witness: after building from `keycode 38 = a A`, the unmodified column
of key code 38 resolves to `KEY_a` and the shift column to `KEY_A`. -/
theorem c7_witness :
    KeyTable.get_keysym
        ⟨[((Modifier.ShiftKey, 38), KeySym.KEY_A), ((Modifier.Key, 38), KeySym.KEY_a)],
          [(KeySym.KEY_A, (Modifier.Key, 38)), (KeySym.KEY_a, (Modifier.Key, 38))]⟩
        Modifier.Key 38 = .ok KeySym.KEY_a ∧
    KeyTable.get_keysym
        ⟨[((Modifier.ShiftKey, 38), KeySym.KEY_A), ((Modifier.Key, 38), KeySym.KEY_a)],
          [(KeySym.KEY_A, (Modifier.Key, 38)), (KeySym.KEY_a, (Modifier.Key, 38))]⟩
        Modifier.ShiftKey 38 = .ok KeySym.KEY_A :=
  (c7_get_keysym_faithful ["keycode 38 = a A".data]
      ⟨[((Modifier.ShiftKey, 38), KeySym.KEY_A), ((Modifier.Key, 38), KeySym.KEY_a)],
        [(KeySym.KEY_A, (Modifier.Key, 38)), (KeySym.KEY_a, (Modifier.Key, 38))]⟩
      (by decide) 38).1 KeySym.KEY_a KeySym.KEY_A (by decide)

/-- C8 counterexample: building from the single line `keycode 10 = a b`, the
only parsed cell producing `KEY_b` is the shift cell `(ShiftKey, 10)` — the
forward map records `(ShiftKey, 10) ↦ KEY_b` and `(Key, 10) ↦ KEY_a` — yet
`get_key KEY_b` returns `(Key, 10)`, not the Key of that cell: the reverse map
tags every entry with `Modifier::Key`. -/
theorem c8_counterexample :
    buildAux KeyTable.empty ["keycode 10 = a b".data]
      = .ok ⟨[((Modifier.ShiftKey, 10), KeySym.KEY_b), ((Modifier.Key, 10), KeySym.KEY_a)],
          [(KeySym.KEY_b, (Modifier.Key, 10)), (KeySym.KEY_a, (Modifier.Key, 10))]⟩ ∧
    KeyTable.get_key
        ⟨[((Modifier.ShiftKey, 10), KeySym.KEY_b), ((Modifier.Key, 10), KeySym.KEY_a)],
          [(KeySym.KEY_b, (Modifier.Key, 10)), (KeySym.KEY_a, (Modifier.Key, 10))]⟩
        KeySym.KEY_b = .ok (Modifier.Key, 10) ∧
    Modifier.Key ≠ Modifier.ShiftKey :=
  ⟨by decide, rfl, by decide⟩

/-- C8 amended: in a successfully built table, `get_key s` succeeds exactly
when `s` was inserted into the reverse map during construction (failing with
`NonExistentKeySym` otherwise), and on success returns the key code of the most
recently parsed cell producing `s`, always tagged with `Modifier::Key`
regardless of which column that cell was. -/
theorem c8_reverse_amended (ls : List Str) (t : KeyTable)
    (h : buildAux KeyTable.empty ls = .ok t) (s : KeySym) :
    (∀ kc, lastSym ls s = some kc → t.get_key s = .ok (Modifier.Key, kc)) ∧
    (lastSym ls s = none → t.get_key s = .error .NonExistentKeySym) := by
  obtain ⟨-, -, -, i4⟩ := buildAux_find h
  have h4 := i4 s
  constructor
  · intro kc hkc
    rw [hkc] at h4
    simp [KeyTable.get_key, h4]
  · intro hn
    rw [hn] at h4
    simp [KeyTable.get_key, h4, KeyTable.empty, findA]

/-- C8 witness: after building from `keycode 38 = a A`, `get_key KEY_a`
returns `(Key, 38)` and `get_key KEY_q` fails with `NonExistentKeySym`. -/
theorem c8_witness :
    KeyTable.get_key
        ⟨[((Modifier.ShiftKey, 38), KeySym.KEY_A), ((Modifier.Key, 38), KeySym.KEY_a)],
          [(KeySym.KEY_A, (Modifier.Key, 38)), (KeySym.KEY_a, (Modifier.Key, 38))]⟩
        KeySym.KEY_a = .ok (Modifier.Key, 38) ∧
    KeyTable.get_key
        ⟨[((Modifier.ShiftKey, 38), KeySym.KEY_A), ((Modifier.Key, 38), KeySym.KEY_a)],
          [(KeySym.KEY_A, (Modifier.Key, 38)), (KeySym.KEY_a, (Modifier.Key, 38))]⟩
        KeySym.KEY_q = .error .NonExistentKeySym :=
  ⟨(c8_reverse_amended ["keycode 38 = a A".data]
      ⟨[((Modifier.ShiftKey, 38), KeySym.KEY_A), ((Modifier.Key, 38), KeySym.KEY_a)],
        [(KeySym.KEY_A, (Modifier.Key, 38)), (KeySym.KEY_a, (Modifier.Key, 38))]⟩
      (by decide) KeySym.KEY_a).1 38 (by decide),
   (c8_reverse_amended ["keycode 38 = a A".data]
      ⟨[((Modifier.ShiftKey, 38), KeySym.KEY_A), ((Modifier.Key, 38), KeySym.KEY_a)],
        [(KeySym.KEY_A, (Modifier.Key, 38)), (KeySym.KEY_a, (Modifier.Key, 38))]⟩
      (by decide) KeySym.KEY_q).2 (by decide)⟩

/-- C10: in every successfully built table, every value of the reverse map
carries the modifier tag `Modifier::Key`, so whenever `get_key` succeeds the
returned Key's modifier component is `Modifier::Key` — including for symbols
parsed only from the shift column. -/
theorem c10_reverse_modifier (ls : List Str) (t : KeyTable)
    (h : buildAux KeyTable.empty ls = .ok t) (s : KeySym) (k : Key)
    (hk : t.get_key s = .ok k) : k.1 = Modifier.Key := by
  obtain ⟨-, -, -, i4⟩ := buildAux_find h
  have h4 := i4 s
  rcases hfind : findA t.keysym_to_key s with _ | k'
  · simp [KeyTable.get_key, hfind] at hk
  · simp only [KeyTable.get_key, hfind, Except.ok.injEq] at hk
    subst hk
    rw [hfind] at h4
    rcases hls : lastSym ls s with _ | kc
    · rw [hls] at h4
      simp [KeyTable.empty, findA] at h4
    · rw [hls] at h4
      obtain rfl : k' = (Modifier.Key, kc) := by injection h4
      rfl

/-- C10 witness: `KEY_A` comes only from the shift column of
`keycode 38 = a A`, and the Key it reverses to is tagged `Modifier::Key`. -/
theorem c10_witness : (Modifier.Key, (38 : KeyCode)).1 = Modifier.Key :=
  c10_reverse_modifier ["keycode 38 = a A".data]
    ⟨[((Modifier.ShiftKey, 38), KeySym.KEY_A), ((Modifier.Key, 38), KeySym.KEY_a)],
      [(KeySym.KEY_A, (Modifier.Key, 38)), (KeySym.KEY_a, (Modifier.Key, 38))]⟩
    (by decide) KeySym.KEY_A (Modifier.Key, 38) rfl

end PinoX
